import Mathlib

/-!
Verification of the dapr-kit structured-error package.

Shallow embedding conventions:
* A Go `error` value is identified by its message string; `nil` errors and
  nil-able pointers/maps are `Option`s (`none` = Go `nil`).
* A Go `map[string]string` value is modelled as an association list
  `List (String × String)`; a nil-able map field is `Option` of that.
* `codes.Code` (uint32) is `Nat`; Go `int` is `Int`.
* Byte slices are modelled by the string of their bytes (the payloads in the
  source are produced only by `[]byte(s)` conversions and an opaque
  marshaller, so byte identity coincides with string identity).
* The opaque collaborators (`status.Status.WithDetails`, which can fail while
  encoding detail messages, and `protojson.Marshal`) are parameters of the
  renderers: `ok : List Detail → Bool` decides whether attaching a given
  detail list succeeds, and `marshal : Status → Except String String` either
  yields the JSON bytes or fails with an error whose message is the
  `Except.error` payload.
-/

/-- `Owner = "components-contrib"` from the source constants. -/
def Owner : String := "components-contrib"

/-- `Domain = "dapr.io"` from the source constants. -/
def Domain : String := "dapr.io"

/-- `unknown = "UNKNOWN_REASON"` from the source constants. -/
def unknown : String := "UNKNOWN_REASON"

/-- `unknownHTTPCode = http.StatusInternalServerError` (500). -/
def unknownHTTPCode : Int := 500

/-- `http.StatusInternalServerError`. -/
def httpStatusInternalServerError : Int := 500

/-- `codes.Unknown` from google.golang.org/grpc/codes. -/
def codesUnknown : Nat := 2

/-- `codes.NotFound` from google.golang.org/grpc/codes. -/
def codesNotFound : Nat := 5

/-- Go `map[string]string` value (association list); `none` is a nil map. -/
abbrev GoMap := Option (List (String × String))

/-- `ResourceInfo` struct from the source (`Type`/`Name` fields; `Type` is a
Lean keyword, so the fields are lowercased here). -/
structure ResourceInfo where
  type : String
  name : String
deriving DecidableEq, Repr

/-- `Error` struct from the source. `err` is the message of the wrapped cause
(`New` only constructs an `Error` when the cause is non-nil). Zero values of
the remaining fields mirror Go zero values: empty strings, `0`, `none`. -/
structure Error where
  err : String
  description : String
  reason : String
  httpCode : Int
  grpcStatusCode : Nat
  metadata : GoMap
  resourceInfo : Option ResourceInfo
deriving DecidableEq, Repr

/-- `Option func(*Error)` from the source: a functional option is a pure
field-update on `Error`. -/
abbrev ErrOption := Error → Error

/-- `New(err, metadata, options...)` from the source. Returns `none` when the
cause is nil; otherwise builds the defaulted struct literal (which, as in the
source, does not read the `metadata` parameter) and applies the options in
order. -/
def New (err : Option String) (metadata : GoMap) (options : List ErrOption) : Option Error :=
  match err with
  | none => none
  | some e =>
    let de : Error :=
      { err := e
        description := ""
        reason := unknown
        httpCode := unknownHTTPCode
        grpcStatusCode := codesUnknown
        metadata := none
        resourceInfo := none }
    some (options.foldl (fun acc option => option acc) de)

/-- The `Error()` method: nil-receiver-safe, returns the cause's message. -/
def errorMessage (e : Option Error) : String :=
  match e with
  | some e => e.err
  | none => ""

/-- `Description()` from the source: the description if non-empty, else the
cause's message. -/
def Error.Description (e : Error) : String :=
  if e.description ≠ "" then e.description else e.err

/-- `WithErrorReason(reason, httpCode, grpcStatusCode)` from the source. -/
def WithErrorReason (reason : String) (httpCode : Int) (grpcStatusCode : Nat) : ErrOption :=
  fun err => { err with reason := reason, grpcStatusCode := grpcStatusCode, httpCode := httpCode }

/-- `WithResourceInfo(resourceInfo)` from the source. -/
def WithResourceInfo (resourceInfo : Option ResourceInfo) : ErrOption :=
  fun e => { e with resourceInfo := resourceInfo }

/-- `WithDescription(description)` from the source. -/
def WithDescription (description : String) : ErrOption :=
  fun e => { e with description := description }

/-- `WithMetadata(md)` from the source. -/
def WithMetadata (md : GoMap) : ErrOption :=
  fun e => { e with metadata := md }

/-- `UnknownErrorReason` from the source. -/
def UnknownErrorReason : ErrOption :=
  WithErrorReason unknown unknownHTTPCode codesUnknown

/-- `HTTPCode()` from the source: substitutes 500 for a zero `httpCode`. -/
def Error.HTTPCode (e : Error) : Int :=
  if e.httpCode = 0 then httpStatusInternalServerError else e.httpCode

/-- `errdetails.ErrorInfo` (the fields the source populates). -/
structure ErrorInfo where
  domain : String
  reason : String
  metadata : GoMap
deriving DecidableEq, Repr

/-- `newErrorInfo(reason, md)` from the source: fixed domain, the passed
reason, and the passed metadata map itself (no copy is made). -/
def newErrorInfo (reason : String) (md : GoMap) : ErrorInfo :=
  { domain := Domain, reason := reason, metadata := md }

/-- `errdetails.ResourceInfo` (the fields the source populates). -/
structure ResourceInfoDetail where
  resourceType : String
  resourceName : String
  owner : String
  description : String
deriving DecidableEq, Repr

/-- `newResourceInfo(rid, err)` from the source. -/
def newResourceInfo (rid : ResourceInfo) (err : String) : ResourceInfoDetail :=
  { resourceType := rid.type
    resourceName := rid.name
    owner := Owner
    description := err }

/-- A detail message attached to a status: one of the three proto detail
types the source constructs (`DaprKitErrorInfo` has the same field shape as
`ErrorInfo`). -/
inductive Detail where
  | errorInfo (ei : ErrorInfo)
  | resourceInfo (ri : ResourceInfoDetail)
  | daprKitErrorInfo (ei : ErrorInfo)
deriving DecidableEq, Repr

/-- `status.Status`: code, message, and the attached detail messages. -/
structure Status where
  code : Nat
  message : String
  details : List Detail
deriving DecidableEq, Repr

/-- `status.New(code, message)`: a status with no details. -/
def statusNew (code : Nat) (message : String) : Status :=
  { code := code, message := message, details := [] }

/-- `Status.WithDetails(messages...)`: attaches the messages, or fails.
Whether the opaque proto-Any encoding succeeds is decided by the `ok`
parameter. -/
def withDetails (ok : List Detail → Bool) (s : Status) (messages : List Detail) :
    Option Status :=
  if ok messages then some { s with details := s.details ++ messages } else none

/-- The detail-message list `GRPCStatus` builds before attaching. -/
def grpcMessages (e : Error) : List Detail :=
  Detail.errorInfo (newErrorInfo e.reason e.metadata) ::
    (match e.resourceInfo with
     | some ri => [Detail.resourceInfo (newResourceInfo ri e.err)]
     | none => [])

/-- `GRPCStatus()` from the source: build the detail list (ErrorInfo first,
ResourceInfo appended when present), attach it, and on attachment failure
fall back to the bare status. -/
def Error.GRPCStatus (ok : List Detail → Bool) (e : Error) : Status :=
  match withDetails ok (statusNew e.grpcStatusCode e.description) (grpcMessages e) with
  | some ste => ste
  | none => statusNew e.grpcStatusCode e.description

/-- `ToHTTP()` from the source: marshal the gRPC status to JSON; on failure
return 500 and the raw error text as the body. -/
def Error.ToHTTP (ok : List Detail → Bool) (marshal : Status → Except String String)
    (e : Error) : Int × String :=
  match marshal (e.GRPCStatus ok) with
  | Except.error err => (httpStatusInternalServerError, err)
  | Except.ok resp => (e.httpCode, resp)

/-- `JSONErrorValue()` from the source: the same marshalled bytes, or the raw
error text on failure. -/
def Error.JSONErrorValue (ok : List Detail → Bool) (marshal : Status → Except String String)
    (e : Error) : String :=
  match marshal (e.GRPCStatus ok) with
  | Except.error err => err
  | Except.ok b => b

/-- Go map insertion `m[k] = v` on an association-list model: overwrite the
existing entry for `k` in place, else append. -/
def mapInsert (m : List (String × String)) (k v : String) : List (String × String) :=
  if m.any (fun p => p.1 = k) then
    m.map (fun p => if p.1 = k then (k, v) else p)
  else
    m ++ [(k, v)]

/-- `ConstructErrorInfo(domain, key, reason, metadata)` from the status
package: metadata starts as `{"key": key}`, then every entry of the passed
map is inserted (a nil map contributes nothing). -/
def ConstructErrorInfo (domain key reason : String) (metadata : GoMap) : ErrorInfo :=
  let base := [("key", key)]
  let md := (match metadata with | none => [] | some m => m).foldl
    (fun acc (p : String × String) => mapInsert acc p.1 p.2) base
  { domain := domain, reason := reason, metadata := some md }

/-- `ConstructDaprKitErrorInfo(domain, key, reason, metadata)` from the status
package: same construction as `ConstructErrorInfo`, different proto type. -/
def ConstructDaprKitErrorInfo (domain key reason : String) (metadata : GoMap) : ErrorInfo :=
  let base := [("key", key)]
  let md := (match metadata with | none => [] | some m => m).foldl
    (fun acc (p : String × String) => mapInsert acc p.1 p.2) base
  { domain := domain, reason := reason, metadata := some md }

/-- `ConstructResourceInfo(owner, resourceName, description, resourceType)`
from the status package: straight field copy. -/
def ConstructResourceInfo (owner resourceName description resourceType : String) :
    ResourceInfoDetail :=
  { resourceType := resourceType
    resourceName := resourceName
    owner := owner
    description := description }

/-- Result of `ConstructError`: either the original cause error, returned
unmodified, or the decorated status error (`ste.Err()`). -/
inductive ResultErr where
  | cause (err : String)
  | statusError (s : Status)
deriving DecidableEq, Repr

/-- The three-message detail list `ConstructError` attaches. -/
def constructMessages (key errDescription resourceType reason owner domain resourceName : String)
    (metadata : GoMap) : List Detail :=
  [Detail.errorInfo (ConstructErrorInfo domain key reason metadata),
   Detail.resourceInfo (ConstructResourceInfo owner resourceName errDescription resourceType),
   Detail.daprKitErrorInfo (ConstructDaprKitErrorInfo domain key reason metadata)]

/-- `ConstructError(...)` from the status package: attach ErrorInfo,
ResourceInfo and DaprKitErrorInfo to one status; on attachment failure return
the original cause error, else the status error. -/
def ConstructError (ok : List Detail → Bool) (code : Nat) (err : String)
    (key errDescription resourceType reason owner domain resourceName : String)
    (metadata : GoMap) : ResultErr :=
  match withDetails ok (statusNew code errDescription)
      (constructMessages key errDescription resourceType reason owner domain resourceName metadata) with
  | none => ResultErr.cause err
  | some ste => ResultErr.statusError ste

/-!
Reference-cell model of Go map values, needed to reason about aliasing: a Go
map variable is a reference into a heap of key/value tables, and
`newErrorInfo` stores the reference it was given (`Metadata: md`).
-/

/-- A Go map reference. -/
abbrev MapRef := Nat

/-- The heap of map contents addressed by references. -/
abbrev Heap := MapRef → List (String × String)

/-- `errdetails.ErrorInfo` at the reference level: the `Metadata` field holds
a map reference, as a Go struct holding a map does. -/
structure ErrorInfoRef where
  domain : String
  reason : String
  metadata : MapRef

/-- `newErrorInfo(reason, md)` at the reference level: the struct literal
`{Domain, reason, md}` stores the same map reference `md`; no copy is made. -/
def newErrorInfoRef (reason : String) (md : MapRef) : ErrorInfoRef :=
  { domain := Domain, reason := reason, metadata := md }

/-- Mutating the map at reference `r` (Go `m[k] = v` style update replaces
the contents reachable through every alias of `r`). -/
def heapWrite (h : Heap) (r : MapRef) (v : List (String × String)) : Heap :=
  fun r2 => if r2 = r then v else h r2

/-- The metadata contents of a record, read through its stored reference. -/
def metadataContents (h : Heap) (ei : ErrorInfoRef) : List (String × String) :=
  h ei.metadata

/-!
Claim theorems.
-/

/-- C1: the claim says `New(cause, m, options...)` with no `WithMetadata`
option applies `m` as the metadata field. Evaluating the code at the failing
input `New(errors.New("boom"), {"k": "v"})` (no options): the returned value
has a nil metadata field, not `{"k": "v"}` — the `metadata` parameter is
never read by `New`. -/
theorem c1_new_ignores_metadata_argument :
    New (some "boom") (some [("k", "v")]) [] =
      some { err := "boom", description := "", reason := "UNKNOWN_REASON",
             httpCode := 500, grpcStatusCode := 2,
             metadata := none, resourceInfo := none } ∧
    (none : GoMap) ≠ some [("k", "v")] :=
  ⟨rfl, by decide⟩

/-- C2 counterexample: build an ErrorInfo record over a heap holding
`{"k": "v"}` at reference 0, then mutate that map to `{"k": "w"}`; the
record's metadata contents change (so the record did NOT store a fresh copy,
refuting the claim that mutating the original map leaves the record
unchanged). -/
theorem c2_no_defensive_copy_counterexample :
    metadataContents (heapWrite (fun _ => [("k", "v")]) 0 [("k", "w")])
        (newErrorInfoRef "R" 0) = [("k", "w")] ∧
    metadataContents (fun _ => [("k", "v")]) (newErrorInfoRef "R" 0) = [("k", "v")] ∧
    metadataContents (heapWrite (fun _ => [("k", "v")]) 0 [("k", "w")])
        (newErrorInfoRef "R" 0) ≠ [("k", "v")] := by
  refine ⟨rfl, rfl, by decide⟩

/-- C2 amended: `newErrorInfo(reason, m)` stores the passed metadata mapping
itself (by reference, no copy), so mutating the original mapping afterward
does change the record's metadata contents, which always track the mutated
map; the record's reason equals the passed value verbatim and its domain is
the fixed constant `"dapr.io"` (`newErrorInfo` takes no domain parameter). -/
theorem c2_newErrorInfo_aliases (h : Heap) (reason : String) (r : MapRef)
    (v : List (String × String)) :
    (newErrorInfoRef reason r).reason = reason ∧
    (newErrorInfoRef reason r).domain = Domain ∧
    (newErrorInfoRef reason r).metadata = r ∧
    metadataContents (heapWrite h r v) (newErrorInfoRef reason r) = v := by
  refine ⟨rfl, rfl, rfl, ?_⟩
  simp [metadataContents, heapWrite, newErrorInfoRef]

/-- C3: `New(nil, metadata, options...)` returns `none` for every metadata
mapping and every option list. -/
theorem c3_new_nil_cause_returns_none (metadata : GoMap) (options : List ErrOption) :
    New none metadata options = none :=
  rfl

/-- C4: for every non-nil cause and no options, the constructed value has
reason `"UNKNOWN_REASON"`, `HTTPCode()` 500, gRPC status code `Unknown`, and
`Description()` equal to the cause's message. -/
theorem c4_new_defaults (msg : String) (metadata : GoMap) :
    ∃ e : Error,
      New (some msg) metadata [] = some e ∧
      e.reason = "UNKNOWN_REASON" ∧
      e.HTTPCode = 500 ∧
      e.grpcStatusCode = codesUnknown ∧
      e.Description = msg := by
  refine ⟨_, rfl, rfl, ?_, rfl, ?_⟩
  · simp [Error.HTTPCode, unknownHTTPCode, httpStatusInternalServerError]
  · simp [Error.Description]

/-- A concrete fully-populated error value, for witnesses. -/
def sampleError : Error :=
  { err := "boom", description := "d", reason := "R", httpCode := 404,
    grpcStatusCode := 5, metadata := some [("k", "v")],
    resourceInfo := some { type := "state", name := "redis" } }

/-- C5: `GRPCStatus()` always yields a status with the error's gRPC code and
description; when attaching succeeds the details are the ErrorInfo record
first, followed by a ResourceInfo record exactly when `resourceInfo` is
present; when attaching fails the result is the bare status with no details
(the failure is never propagated). -/
theorem c5_grpcstatus_details (ok : List Detail → Bool) (e : Error) :
    (e.GRPCStatus ok).code = e.grpcStatusCode ∧
    (e.GRPCStatus ok).message = e.description ∧
    (ok (grpcMessages e) = true →
      (e.GRPCStatus ok).details =
        Detail.errorInfo (newErrorInfo e.reason e.metadata) ::
          (match e.resourceInfo with
           | some ri => [Detail.resourceInfo (newResourceInfo ri e.err)]
           | none => [])) ∧
    (ok (grpcMessages e) = false → (e.GRPCStatus ok).details = []) := by
  unfold Error.GRPCStatus withDetails
  cases hok : ok (grpcMessages e) <;>
    simp [hok, statusNew, grpcMessages]

/-- C5 witness: at `sampleError`, an always-succeeding attacher yields the
two details in order, and an always-failing attacher yields no details. -/
theorem c5_grpcstatus_details_witness :
    (sampleError.GRPCStatus (fun _ => true)).details =
      Detail.errorInfo (newErrorInfo sampleError.reason sampleError.metadata) ::
        [Detail.resourceInfo
          (newResourceInfo { type := "state", name := "redis" } sampleError.err)] ∧
    (sampleError.GRPCStatus (fun _ => false)).details = [] :=
  ⟨(c5_grpcstatus_details (fun _ => true) sampleError).2.2.1 rfl,
   (c5_grpcstatus_details (fun _ => false) sampleError).2.2.2 rfl⟩

/-- C6: `ConstructError` returns the original cause error unmodified when
attaching the three details fails, and the fully decorated status error
(code, description, and the three details) when it succeeds. -/
theorem c6_construct_error_policy (ok : List Detail → Bool) (code : Nat)
    (err key errDescription resourceType reason owner domain resourceName : String)
    (metadata : GoMap) :
    (ok (constructMessages key errDescription resourceType reason owner domain
          resourceName metadata) = false →
      ConstructError ok code err key errDescription resourceType reason owner domain
          resourceName metadata = ResultErr.cause err) ∧
    (ok (constructMessages key errDescription resourceType reason owner domain
          resourceName metadata) = true →
      ConstructError ok code err key errDescription resourceType reason owner domain
          resourceName metadata =
        ResultErr.statusError
          { code := code, message := errDescription,
            details := constructMessages key errDescription resourceType reason owner
              domain resourceName metadata }) := by
  unfold ConstructError withDetails
  cases hok : ok (constructMessages key errDescription resourceType reason owner domain
      resourceName metadata) <;>
    simp [hok, statusNew]

/-- C6 witness: at concrete arguments, a failing attacher returns the
original cause and a succeeding attacher returns the decorated status. -/
theorem c6_construct_error_policy_witness :
    ConstructError (fun _ => false) 5 "boom" "K" "desc" "state" "R" "own" "dom" "rn"
        (some [("a", "b")]) = ResultErr.cause "boom" ∧
    ConstructError (fun _ => true) 5 "boom" "K" "desc" "state" "R" "own" "dom" "rn"
        (some [("a", "b")]) =
      ResultErr.statusError
        { code := 5, message := "desc",
          details := constructMessages "K" "desc" "state" "R" "own" "dom" "rn"
            (some [("a", "b")]) } :=
  ⟨(c6_construct_error_policy (fun _ => false) 5 "boom" "K" "desc" "state" "R" "own"
      "dom" "rn" (some [("a", "b")])).1 rfl,
   (c6_construct_error_policy (fun _ => true) 5 "boom" "K" "desc" "state" "R" "own"
      "dom" "rn" (some [("a", "b")])).2 rfl⟩

/-- C7: `ToHTTP()` never signals failure: when marshalling succeeds it
returns the stored `httpCode` with the JSON bytes, and when marshalling
fails it returns 500 with the raw error text as the body. -/
theorem c7_tohttp_total (ok : List Detail → Bool)
    (marshal : Status → Except String String) (e : Error) :
    (∀ b, marshal (e.GRPCStatus ok) = Except.ok b →
      e.ToHTTP ok marshal = (e.httpCode, b)) ∧
    (∀ s, marshal (e.GRPCStatus ok) = Except.error s →
      e.ToHTTP ok marshal = (httpStatusInternalServerError, s)) := by
  constructor
  · intro b hb
    unfold Error.ToHTTP
    rw [hb]
  · intro s hs
    unfold Error.ToHTTP
    rw [hs]

/-- C7 witness: at `sampleError`, a succeeding marshaller yields
`(404, body)` and a failing marshaller yields `(500, error text)`. -/
theorem c7_tohttp_total_witness :
    sampleError.ToHTTP (fun _ => true) (fun _ => Except.ok "body") = (404, "body") ∧
    sampleError.ToHTTP (fun _ => true) (fun _ => Except.error "marshal failed") =
      (500, "marshal failed") :=
  ⟨(c7_tohttp_total (fun _ => true) (fun _ => Except.ok "body") sampleError).1
      "body" rfl,
   (c7_tohttp_total (fun _ => true) (fun _ => Except.error "marshal failed")
      sampleError).2 "marshal failed" rfl⟩

/-- C8: the byte payload of `ToHTTP()` is identical to the payload returned
by `JSONErrorValue()` on the same value, on both the success and the failure
path of marshalling. -/
theorem c8_json_payload_identical (ok : List Detail → Bool)
    (marshal : Status → Except String String) (e : Error) :
    (e.ToHTTP ok marshal).2 = e.JSONErrorValue ok marshal := by
  unfold Error.ToHTTP Error.JSONErrorValue
  cases marshal (e.GRPCStatus ok) <;> rfl

/-- C9: `HTTPCode()` never returns 0, and constructing with an option that
explicitly sets `httpCode` to 0 still yields 500 from the accessor. -/
theorem c9_httpcode_never_zero :
    (∀ e : Error, e.HTTPCode ≠ 0) ∧
    (∀ (msg : String) (metadata : GoMap) (reason : String) (c : Nat),
      ∃ e : Error,
        New (some msg) metadata [WithErrorReason reason 0 c] = some e ∧
        e.HTTPCode = 500) := by
  constructor
  · intro e
    unfold Error.HTTPCode
    split
    · norm_num [httpStatusInternalServerError]
    · assumption
  · intro msg metadata reason c
    refine ⟨_, rfl, ?_⟩
    simp [Error.HTTPCode, WithErrorReason, httpStatusInternalServerError]

/-- A concrete error value with a stored `httpCode` of 0, for witnesses. -/
def zeroCodeError : Error :=
  { err := "boom", description := "", reason := "R", httpCode := 0,
    grpcStatusCode := 2, metadata := none, resourceInfo := none }

/-- C10: when the stored `httpCode` is 0 and marshalling succeeds, `ToHTTP()`
returns 0 as the status code (the renderer passes the stored `httpCode`
through unchanged), while the `HTTPCode()` accessor on the same value
returns 500 — the zero-to-500 substitution lives only in the accessor. -/
theorem c10_tohttp_keeps_zero (ok : List Detail → Bool)
    (marshal : Status → Except String String) (e : Error) (b : String)
    (hzero : e.httpCode = 0) (hok : marshal (e.GRPCStatus ok) = Except.ok b) :
    (e.ToHTTP ok marshal).1 = 0 ∧ e.HTTPCode = 500 := by
  constructor
  · unfold Error.ToHTTP
    rw [hok, ← hzero]
  · simp [Error.HTTPCode, hzero, httpStatusInternalServerError]

/-- C10 witness: at `zeroCodeError` with a succeeding marshaller, `ToHTTP`
reports status 0 while `HTTPCode()` reports 500. -/
theorem c10_tohttp_keeps_zero_witness :
    (zeroCodeError.ToHTTP (fun _ => true) (fun _ => Except.ok "body")).1 = 0 ∧
    zeroCodeError.HTTPCode = 500 :=
  c10_tohttp_keeps_zero (fun _ => true) (fun _ => Except.ok "body") zeroCodeError
    "body" rfl rfl
